import Mathlib

set_option maxRecDepth 8000

/-!
Verification of the libmp3tag specification against a shallow embedding of
its C sources.  Byte strings are modelled as `List Nat` with every element
below 256; C integer arithmetic is modelled on `Nat` with explicit masks
where the C code masks.  Fallible operations return `Except Err`.
-/

namespace Mp3tag

/-- Byte strings (file contents, buffers, C strings without their NUL). -/
abbrev Bytes := List Nat

/-- ASCII bytes of a Lean string literal; used to transcribe C string
constants such as frame ids and table names. -/
def ascii (s : String) : Bytes := s.data.map Char.toNat

/-! ## Syncsafe and big-endian 32-bit helpers (src/id3v2/id3v2_defs.h) -/

/-- `id3v2_syncsafe_decode` from id3v2_defs.h:
`(b[0]<<21) | (b[1]<<14) | (b[2]<<7) | b[3]`. -/
def id3v2_syncsafe_decode (b : Bytes) : Nat :=
  ((b.getD 0 0) <<< 21) ||| ((b.getD 1 0) <<< 14) |||
  ((b.getD 2 0) <<< 7) ||| (b.getD 3 0)

/-- `id3v2_syncsafe_encode` from id3v2_defs.h: four bytes
`(val>>21)&0x7F, (val>>14)&0x7F, (val>>7)&0x7F, val&0x7F`. -/
def id3v2_syncsafe_encode (val : Nat) : Bytes :=
  [(val >>> 21) &&& 0x7F, (val >>> 14) &&& 0x7F, (val >>> 7) &&& 0x7F,
   val &&& 0x7F]

/-- `id3v2_be32_decode` from id3v2_defs.h. -/
def id3v2_be32_decode (b : Bytes) : Nat :=
  ((b.getD 0 0) <<< 24) ||| ((b.getD 1 0) <<< 16) |||
  ((b.getD 2 0) <<< 8) ||| (b.getD 3 0)

/-- `id3v2_be32_encode` from id3v2_defs.h. -/
def id3v2_be32_encode (val : Nat) : Bytes :=
  [(val >>> 24) &&& 0xFF, (val >>> 16) &&& 0xFF, (val >>> 8) &&& 0xFF,
   val &&& 0xFF]

/-! ## Arithmetic lemmas about the bit-level helpers -/

theorem shiftLeft_or_eq_add {a b k : Nat} (hb : b < 2 ^ k) :
    (a <<< k) ||| b = 2 ^ k * a + b := by
  rw [Nat.shiftLeft_eq, Nat.mul_comm a, ← Nat.mul_add_lt_is_or hb]

theorem and_127_eq_mod {x : Nat} : x &&& 0x7F = x % 128 := by
  have h : (0x7F : Nat) = 2 ^ 7 - 1 := by norm_num
  rw [h, Nat.and_pow_two_sub_one_eq_mod]

theorem and_255_eq_mod {x : Nat} : x &&& 0xFF = x % 256 := by
  have h : (0xFF : Nat) = 2 ^ 8 - 1 := by norm_num
  rw [h, Nat.and_pow_two_sub_one_eq_mod]

theorem and_128_eq_zero {x : Nat} (h : x < 128) : x &&& 0x80 = 0 := by
  have h7 : (0x80 : Nat) = 2 ^ 7 := by norm_num
  rw [h7, Nat.and_two_pow, Nat.testBit_lt_two_pow (by simpa using h)]
  simp

/-- Closed form of the syncsafe decoder on four in-range bytes. -/
theorem id3v2_syncsafe_decode_eq {b0 b1 b2 b3 : Nat}
    (h0 : b0 < 128) (h1 : b1 < 128) (h2 : b2 < 128) (h3 : b3 < 128) :
    id3v2_syncsafe_decode [b0, b1, b2, b3] =
      2 ^ 21 * b0 + (2 ^ 14 * b1 + (2 ^ 7 * b2 + b3)) := by
  have p7 : (2 : Nat) ^ 7 = 128 := by norm_num
  have p14 : (2 : Nat) ^ 14 = 16384 := by norm_num
  have p21 : (2 : Nat) ^ 21 = 2097152 := by norm_num
  unfold id3v2_syncsafe_decode
  simp only [List.getD_cons_zero, List.getD_cons_succ]
  rw [Nat.or_assoc, Nat.or_assoc]
  rw [shiftLeft_or_eq_add (k := 7) (by omega)]
  rw [shiftLeft_or_eq_add (k := 14) (by rw [p14]; omega)]
  rw [shiftLeft_or_eq_add (k := 21) (by rw [p21, p7] at *; omega)]

/-- C1: for every `n < 2^28`, decoding the 4-byte syncsafe encoding of `n`
yields `n` again, and every byte the encoder produces has its high bit
(`0x80`) clear. -/
theorem syncsafe_roundtrip (n : Nat) (h : n < 2 ^ 28) :
    id3v2_syncsafe_decode (id3v2_syncsafe_encode n) = n ∧
    ∀ b ∈ id3v2_syncsafe_encode n, b &&& 0x80 = 0 := by
  have p28 : (2 : Nat) ^ 28 = 268435456 := by norm_num
  constructor
  · show id3v2_syncsafe_decode
      [(n >>> 21) &&& 0x7F, (n >>> 14) &&& 0x7F, (n >>> 7) &&& 0x7F,
       n &&& 0x7F] = n
    simp only [and_127_eq_mod, Nat.shiftRight_eq_div_pow]
    rw [id3v2_syncsafe_decode_eq (Nat.mod_lt _ (by omega))
      (Nat.mod_lt _ (by omega)) (Nat.mod_lt _ (by omega))
      (Nat.mod_lt _ (by omega))]
    have e7 : (2 : Nat) ^ 7 = 128 := by norm_num
    have e14 : (2 : Nat) ^ 14 = 16384 := by norm_num
    have e21 : (2 : Nat) ^ 21 = 2097152 := by norm_num
    rw [e7, e14, e21, p28] at *
    omega
  · intro b hb
    simp only [id3v2_syncsafe_encode, List.mem_cons, List.not_mem_nil,
      or_false] at hb
    have : b &&& 0x7F = b ∨ b = n &&& 0x7F := by
      rcases hb with h' | h' | h' | h'
      · left; rw [h', Nat.and_assoc]; norm_num
      · left; rw [h', Nat.and_assoc]; norm_num
      · left; rw [h', Nat.and_assoc]; norm_num
      · right; exact h'
    have hlt : b < 128 := by
      rcases this with h' | h'
      · rw [← h', and_127_eq_mod]; omega
      · rw [h', and_127_eq_mod]; omega
    exact and_128_eq_zero hlt

/-- Witness for C1 at a concrete input. -/
theorem syncsafe_roundtrip_witness :
    id3v2_syncsafe_decode (id3v2_syncsafe_encode 123456789) = 123456789 ∧
    ∀ b ∈ id3v2_syncsafe_encode 123456789, b &&& 0x80 = 0 :=
  syncsafe_roundtrip 123456789 (by norm_num)

/-! ## Error codes (include/mp3tag/mp3tag_error.h) -/

inductive Err where
  | invalidArg | noMemory | ioError | notOpen | alreadyOpen | readOnly
  | notMp3 | badId3v2 | corrupt | truncated | unsupported
  | noTags | tagNotFound | tagTooLarge
  | noSpace | writeFailed | seekFailed | renameFailed
deriving DecidableEq, Repr

/-! ## ID3v2 header parsing (src/id3v2/id3v2_reader.c) -/

/-- Parsed ID3v2 header (`id3v2_header_t`, src/id3v2/id3v2_reader.h). -/
structure V2Header where
  version_major : Nat
  version_revision : Nat
  flags : Nat
  tag_size : Nat
  has_footer : Bool
deriving DecidableEq, Repr

/-- `id3v2_read_header` (src/id3v2/id3v2_reader.c, lines 16-48) applied to
the ten bytes read at the caller-supplied offset.  The seek and the 10-byte
read are assumed successful; the function then performs the magic, version
and syncsafe checks exactly as the C code does. -/
def id3v2_read_header (buf : Bytes) : Except Err V2Header :=
  if ¬ (buf.getD 0 0 = 73 ∧ buf.getD 1 0 = 68 ∧ buf.getD 2 0 = 51) then
    .error .notMp3
  else if buf.getD 3 0 < 3 ∨ buf.getD 3 0 > 4 then
    .error .unsupported
  else if (buf.getD 6 0) &&& 0x80 ≠ 0 ∨ (buf.getD 7 0) &&& 0x80 ≠ 0 ∨
          (buf.getD 8 0) &&& 0x80 ≠ 0 ∨ (buf.getD 9 0) &&& 0x80 ≠ 0 then
    .error .badId3v2
  else
    .ok { version_major := buf.getD 3 0
          version_revision := buf.getD 4 0
          flags := buf.getD 5 0
          tag_size := id3v2_syncsafe_decode (buf.drop 6)
          has_footer := buf.getD 3 0 == 4 && ((buf.getD 5 0) &&& 0x10 != 0) }

theorem and_128_ne_zero_iff {b : Nat} (h : b < 256) :
    b &&& 0x80 ≠ 0 ↔ 128 ≤ b := by
  have h7 : (0x80 : Nat) = 2 ^ 7 := by norm_num
  have e7 : (2 : Nat) ^ 7 = 128 := by norm_num
  rw [h7, Nat.and_two_pow, Nat.testBit_to_div_mod, e7]
  by_cases hb : b / 128 % 2 = 1 <;> simp [hb] <;> omega

/-- C2: on a 10-byte input, `id3v2_read_header` fails with NOT_MP3 when the
magic is not "ID3"; with UNSUPPORTED when the major version byte is not 3 or
4; with BAD_ID3V2 when one of the four size bytes has its high bit set; and
otherwise succeeds with `tag_size` the syncsafe decode
`(b6<<21)|(b7<<14)|(b8<<7)|b9` of the four size bytes. -/
theorem read_header_cases (b0 b1 b2 b3 b4 b5 b6 b7 b8 b9 : Nat)
    (w6 : b6 < 256) (w7 : b7 < 256) (w8 : b8 < 256) (w9 : b9 < 256) :
    (¬ (b0 = 73 ∧ b1 = 68 ∧ b2 = 51) →
      id3v2_read_header [b0, b1, b2, b3, b4, b5, b6, b7, b8, b9] =
        .error .notMp3) ∧
    ((b0 = 73 ∧ b1 = 68 ∧ b2 = 51) → b3 ≠ 3 → b3 ≠ 4 →
      id3v2_read_header [b0, b1, b2, b3, b4, b5, b6, b7, b8, b9] =
        .error .unsupported) ∧
    ((b0 = 73 ∧ b1 = 68 ∧ b2 = 51) → (b3 = 3 ∨ b3 = 4) →
      (128 ≤ b6 ∨ 128 ≤ b7 ∨ 128 ≤ b8 ∨ 128 ≤ b9) →
      id3v2_read_header [b0, b1, b2, b3, b4, b5, b6, b7, b8, b9] =
        .error .badId3v2) ∧
    ((b0 = 73 ∧ b1 = 68 ∧ b2 = 51) → (b3 = 3 ∨ b3 = 4) →
      b6 < 128 → b7 < 128 → b8 < 128 → b9 < 128 →
      ∃ hdr, id3v2_read_header [b0, b1, b2, b3, b4, b5, b6, b7, b8, b9] =
        .ok hdr ∧
        hdr.tag_size = (b6 <<< 21) ||| (b7 <<< 14) ||| (b8 <<< 7) ||| b9) := by
  simp only [id3v2_read_header, List.getD_cons_zero, List.getD_cons_succ,
    List.drop]
  refine ⟨fun h => ?_, fun hm h3 h4 => ?_, fun hm hv hs => ?_,
    fun hm hv h6 h7 h8 h9 => ?_⟩
  · rw [if_pos h]
  · rw [if_neg (by simpa using hm), if_pos (by omega)]
  · rw [if_neg (by simpa using hm), if_neg (by omega), if_pos]
    rcases hs with h | h | h | h
    · exact Or.inl ((and_128_ne_zero_iff w6).mpr h)
    · exact Or.inr (Or.inl ((and_128_ne_zero_iff w7).mpr h))
    · exact Or.inr (Or.inr (Or.inl ((and_128_ne_zero_iff w8).mpr h)))
    · exact Or.inr (Or.inr (Or.inr ((and_128_ne_zero_iff w9).mpr h)))
  · rw [if_neg (by simpa using hm), if_neg (by omega), if_neg]
    · refine ⟨_, rfl, ?_⟩
      simp only [id3v2_syncsafe_decode, List.getD_cons_zero,
        List.getD_cons_succ]
    · push_neg
      refine ⟨?_, ?_, ?_, ?_⟩ <;>
        simp only [ne_eq, not_not] at *
      · by_contra hc
        exact absurd ((and_128_ne_zero_iff w6).mp hc) (by omega)
      · by_contra hc
        exact absurd ((and_128_ne_zero_iff w7).mp hc) (by omega)
      · by_contra hc
        exact absurd ((and_128_ne_zero_iff w8).mp hc) (by omega)
      · by_contra hc
        exact absurd ((and_128_ne_zero_iff w9).mp hc) (by omega)

/-- Witness for C2: a concrete valid v2.4 header with size bytes 0,0,2,1. -/
theorem read_header_cases_witness :
    ∃ hdr, id3v2_read_header [73, 68, 51, 4, 0, 0, 0, 0, 2, 1] =
      .ok hdr ∧
      hdr.tag_size = ((0 : Nat) <<< 21) ||| ((0 : Nat) <<< 14) |||
        ((2 : Nat) <<< 7) ||| 1 :=
  (read_header_cases 73 68 51 4 0 0 0 0 2 1 (by norm_num) (by norm_num)
    (by norm_num) (by norm_num)).2.2.2 ⟨rfl, rfl, rfl⟩ (Or.inr rfl)
    (by norm_num) (by norm_num) (by norm_num) (by norm_num)

/-! ## Byte I/O surface -/

/-- Modelled from the spec: the Byte I/O surface ("positioned read ...
full-read", spec section 2) lives in `tag_common/file_io.h`, which is not
part of this repository.  A full read of `n` bytes at `pos` succeeds exactly
when the file holds `n` bytes from `pos` on; in-range seeks succeed. -/
def file_read (file : Bytes) (pos n : Nat) : Option Bytes :=
  if pos + n ≤ file.length then some ((file.drop pos).take n) else none

theorem file_read_length {file : Bytes} {pos n : Nat} {d : Bytes}
    (h : file_read file pos n = some d) : d.length = n := by
  unfold file_read at h
  split at h
  · cases h
    simp only [List.length_take, List.length_drop]
    omega
  · cases h

/-! ## Frame walk (src/id3v2/id3v2_reader.c) -/

/-- `id3v2_frame_t` (src/id3v2/id3v2_reader.h); `data_size` is
`data.length`. -/
structure Frame where
  id : Bytes
  data : Bytes
  flags : Nat
deriving DecidableEq, Repr

/-- Frame-id byte check of the walk: uppercase A-Z or digit 0-9. -/
def valid_frame_id_byte (c : Nat) : Bool :=
  (65 ≤ c && c ≤ 90) || (48 ≤ c && c ≤ 57)

/-- Frame size decoding of the walk: syncsafe for v2.4, plain big-endian
for v2.3 (src/id3v2/id3v2_reader.c, lines 277-282).  `fhdr` is the 10-byte
frame header; the size field is bytes 4-7. -/
def frame_size_of (v4 : Bool) (fhdr : Bytes) : Nat :=
  if v4 then id3v2_syncsafe_decode (fhdr.drop 4)
  else id3v2_be32_decode (fhdr.drop 4)

/-- The frame-walk loop of `id3v2_read_frames` (src/id3v2/id3v2_reader.c,
lines 252-329).  `v4` selects syncsafe (v2.4) versus plain big-endian
(v2.3) frame sizes.  `fuel` only bounds the number of iterations: each
iteration advances `pos` by at least 10 while the guard keeps
`pos + 10 ≤ tag_end`, so any `fuel > tag_end` exceeds the iteration count
and the loop behaves exactly like the C `while`. -/
def read_frames_loop (file : Bytes) (v4 : Bool) (tag_end : Nat) :
    Nat → Nat → Except Err (List Frame)
  | 0, _ => .ok []
  | fuel + 1, pos =>
    if pos + 10 ≤ tag_end then
      match file_read file pos 10 with
      | none => .ok []
      | some fhdr =>
        if fhdr.getD 0 0 = 0 then .ok []
        else if ¬ (fhdr.take 4).all valid_frame_id_byte then .ok []
        else if pos + 10 + frame_size_of v4 fhdr > tag_end then .ok []
        else
          match file_read file (pos + 10) (frame_size_of v4 fhdr) with
          | none => .error .truncated
          | some data =>
            match read_frames_loop file v4 tag_end fuel
                (pos + 10 + frame_size_of v4 fhdr) with
            | .error e => .error e
            | .ok rest =>
              .ok ({ id := fhdr.take 4, data := data,
                     flags := ((fhdr.getD 8 0) <<< 8) ||| fhdr.getD 9 0 }
                :: rest)
    else .ok []

/-- `id3v2_read_frames` (src/id3v2/id3v2_reader.c, lines 219-332): skip the
extended header when header flag 0x40 is set (v2.4 sizes include their own
four bytes, v2.3 sizes exclude them), then walk the frames bounded by
`tag_start + tag_size`. -/
def id3v2_read_frames (file : Bytes) (base_offset : Nat) (hdr : V2Header) :
    Except Err (List Frame) :=
  if hdr.flags &&& 0x40 ≠ 0 then
    match file_read file (base_offset + 10) 4 with
    | none => .error .truncated
    | some ext_buf =>
      read_frames_loop file (hdr.version_major == 4)
        (base_offset + 10 + hdr.tag_size)
        (base_offset + 10 + hdr.tag_size + 1)
        (if hdr.version_major == 4
         then base_offset + 10 + id3v2_syncsafe_decode ext_buf
         else base_offset + 10 + 4 + id3v2_be32_decode ext_buf)
  else
    read_frames_loop file (hdr.version_major == 4)
      (base_offset + 10 + hdr.tag_size)
      (base_offset + 10 + hdr.tag_size + 1)
      (base_offset + 10)

/-- Total bytes a frame list accounts for inside the tag body: ten header
bytes plus the data size, per frame. -/
def frames_walk_bytes (l : List Frame) : Nat :=
  (l.map (fun f => 10 + f.data.length)).sum

theorem read_frames_loop_bytes_le (file : Bytes) (v4 : Bool)
    (tag_end : Nat) :
    ∀ fuel pos l, read_frames_loop file v4 tag_end fuel pos = .ok l →
      frames_walk_bytes l ≤ tag_end - pos := by
  intro fuel
  induction fuel with
  | zero =>
    intro pos l h
    cases h
    simp [frames_walk_bytes]
  | succ n ih =>
    intro pos l h
    rw [read_frames_loop] at h
    split at h
    case isFalse => cases h; simp [frames_walk_bytes]
    case isTrue hguard =>
      split at h
      case h_1 => cases h; simp [frames_walk_bytes]
      case h_2 fhdr hread =>
        split at h
        case isTrue => cases h; simp [frames_walk_bytes]
        case isFalse =>
          split at h
          case isTrue => cases h; simp [frames_walk_bytes]
          case isFalse =>
            split at h
            case isTrue => cases h; simp [frames_walk_bytes]
            case isFalse hsz =>
              split at h
              case h_1 => cases h
              case h_2 data hdata =>
                split at h
                case h_1 => cases h
                case h_2 rest hrest =>
                  cases h
                  have hr := ih _ _ hrest
                  have hd := file_read_length hdata
                  simp only [frames_walk_bytes, List.map_cons,
                    List.sum_cons] at *
                  omega

theorem frames_walk_bytes_nil : frames_walk_bytes [] = 0 := rfl

/-- One unfolding of the loop when the candidate frame at `pos` survives the
padding and id checks but its declared size overruns the tag bound: the
frame is not emitted and the walk returns what it has (here, nothing). -/
theorem read_frames_loop_stops_on_overrun (file : Bytes) (v4 : Bool)
    (tag_end fuel pos : Nat) (fhdr : Bytes)
    (hguard : pos + 10 ≤ tag_end)
    (hread : file_read file pos 10 = some fhdr)
    (hpad : fhdr.getD 0 0 ≠ 0)
    (hid : (fhdr.take 4).all valid_frame_id_byte)
    (hover : pos + 10 + frame_size_of v4 fhdr > tag_end) :
    read_frames_loop file v4 tag_end (fuel + 1) pos = .ok [] := by
  rw [read_frames_loop, if_pos hguard]
  simp only [hread]
  rw [if_neg hpad, if_neg (not_not_intro hid), if_pos hover]

/-- C3: (1) for every file and header, when the frame walk succeeds the sum
of `10 + frame.data_size` over the emitted frames never exceeds the declared
`tag_size`; (2) a candidate frame whose header end plus declared size would
exceed the tag bound is not emitted and the walk stops there. -/
theorem frame_walk_bound :
    (∀ (file : Bytes) (base_offset : Nat) (hdr : V2Header)
       (frames : List Frame),
       id3v2_read_frames file base_offset hdr = .ok frames →
       frames_walk_bytes frames ≤ hdr.tag_size) ∧
    (∀ (file : Bytes) (v4 : Bool) (tag_end fuel pos : Nat) (fhdr : Bytes),
       pos + 10 ≤ tag_end →
       file_read file pos 10 = some fhdr →
       fhdr.getD 0 0 ≠ 0 →
       (fhdr.take 4).all valid_frame_id_byte →
       pos + 10 + frame_size_of v4 fhdr > tag_end →
       read_frames_loop file v4 tag_end (fuel + 1) pos = .ok []) := by
  constructor
  · intro file base_offset hdr frames h
    unfold id3v2_read_frames at h
    split at h
    · split at h
      case h_1 => cases h
      case h_2 ext_buf hext =>
        have hb := read_frames_loop_bytes_le file (hdr.version_major == 4)
          (base_offset + 10 + hdr.tag_size)
          (base_offset + 10 + hdr.tag_size + 1) _ frames h
        have hge : base_offset + 10 ≤
            (if hdr.version_major == 4
             then base_offset + 10 + id3v2_syncsafe_decode ext_buf
             else base_offset + 10 + 4 + id3v2_be32_decode ext_buf) := by
          split <;> omega
        omega
    · have hb := read_frames_loop_bytes_le file (hdr.version_major == 4)
        (base_offset + 10 + hdr.tag_size)
        (base_offset + 10 + hdr.tag_size + 1) (base_offset + 10) frames h
      omega
  · intro file v4 tag_end fuel pos fhdr hguard hread hpad hid hover
    exact read_frames_loop_stops_on_overrun file v4 tag_end fuel pos fhdr
      hguard hread hpad hid hover

/-- Witness for C3: a concrete 30-byte v2.4 tag with one TIT2 frame, and a
concrete walk stopping on an oversized candidate frame. -/
theorem frame_walk_bound_witness :
    frames_walk_bytes [{ id := [84, 73, 84, 50], data := [65], flags := 0 }]
      ≤ 20 ∧
    read_frames_loop [84, 73, 84, 50, 0, 0, 0, 99, 0, 0] true 15 5 0 =
      .ok [] :=
  ⟨frame_walk_bound.1
      (List.replicate 10 0 ++ [84, 73, 84, 50, 0, 0, 0, 1, 0, 0, 65] ++
        List.replicate 9 0) 0
      { version_major := 4, version_revision := 0, flags := 0, tag_size := 20,
        has_footer := false }
      [{ id := [84, 73, 84, 50], data := [65], flags := 0 }] (by rfl),
   frame_walk_bound.2 [84, 73, 84, 50, 0, 0, 0, 99, 0, 0] true 15 4 0
      [84, 73, 84, 50, 0, 0, 0, 99, 0, 0] (by decide) (by decide) (by decide)
      (by decide) (by decide)⟩

/-! ## Text decoding (src/id3v2/id3v2_reader.c, lines 54-213) -/

/-- `decode_iso8859_1`: bytes below 0x80 pass through, larger bytes expand
to the two UTF-8 bytes `(0xC0|b>>6, 0x80|b&0x3F)`; stop at the first zero
byte. -/
def decode_iso8859_1 : Bytes → Bytes
  | [] => []
  | c :: rest =>
    if c = 0 then []
    else if c < 0x80 then c :: decode_iso8859_1 rest
    else (0xC0 ||| (c >>> 6)) :: (0x80 ||| (c &&& 0x3F)) ::
      decode_iso8859_1 rest

/-- `decode_utf8`: copy bytes up to the first zero. -/
def decode_utf8 (data : Bytes) : Bytes := data.takeWhile (fun c => c != 0)

/-- One UTF-16 code unit from two bytes, as the C loop reads it:
`(data[i]<<8)|data[i+1]` when big-endian, `(data[i+1]<<8)|data[i]`
otherwise. -/
def utf16_unit (be : Bool) (b0 b1 : Nat) : Nat :=
  if be then (b0 <<< 8) ||| b1 else (b1 <<< 8) ||| b0

/-- UTF-8 bytes the decoder emits for a BMP code unit
(src/id3v2/id3v2_reader.c, lines 155-165). -/
def utf8_of_bmp (cp : Nat) : Bytes :=
  if cp < 0x80 then [cp]
  else if cp < 0x800 then [0xC0 ||| (cp >>> 6), 0x80 ||| (cp &&& 0x3F)]
  else [0xE0 ||| (cp >>> 12), 0x80 ||| ((cp >>> 6) &&& 0x3F),
        0x80 ||| (cp &&& 0x3F)]

/-- UTF-8 bytes the decoder emits for a decoded surrogate pair
(src/id3v2/id3v2_reader.c, lines 146-149): the standard 4-byte UTF-8 form
of the code point. -/
def utf8_of_supplementary (full : Nat) : Bytes :=
  [0xF0 ||| ((full >>> 18) &&& 0x07), 0x80 ||| ((full >>> 12) &&& 0x3F),
   0x80 ||| ((full >>> 6) &&& 0x3F), 0x80 ||| (full &&& 0x3F)]

/-- The body loop of `decode_utf16` (src/id3v2/id3v2_reader.c, lines
124-166): consume code units two bytes at a time, stop at a zero unit,
combine a high surrogate followed by a low surrogate (only when four bytes
remain, per the C `i + 3 < len` check) into a supplementary code point, and
emit every other unit as BMP UTF-8. -/
def decode_utf16_loop (be : Bool) : Bytes → Bytes
  | b0 :: b1 :: b2 :: b3 :: rest =>
    if utf16_unit be b0 b1 = 0 then []
    else if 0xD800 ≤ utf16_unit be b0 b1 ∧ utf16_unit be b0 b1 ≤ 0xDBFF then
      if 0xDC00 ≤ utf16_unit be b2 b3 ∧ utf16_unit be b2 b3 ≤ 0xDFFF then
        utf8_of_supplementary (0x10000 +
            ((utf16_unit be b0 b1 - 0xD800) <<< 10) +
            (utf16_unit be b2 b3 - 0xDC00)) ++
          decode_utf16_loop be rest
      else utf8_of_bmp (utf16_unit be b0 b1) ++
        decode_utf16_loop be (b2 :: b3 :: rest)
    else utf8_of_bmp (utf16_unit be b0 b1) ++
      decode_utf16_loop be (b2 :: b3 :: rest)
  | [b0, b1] =>
    if utf16_unit be b0 b1 = 0 then []
    else utf8_of_bmp (utf16_unit be b0 b1)
  | [b0, b1, b2] =>
    if utf16_unit be b0 b1 = 0 then []
    else utf8_of_bmp (utf16_unit be b0 b1)
  | _ => []

/-- `decode_utf16` (src/id3v2/id3v2_reader.c, lines 102-169): inputs
shorter than two bytes decode to the empty string; with `has_bom` the first
two bytes select the endianness (defaulting to `default_be` on a missing
BOM) and are always skipped; without a BOM the whole input is decoded with
the default endianness. -/
def decode_utf16 (data : Bytes) (has_bom default_be : Bool) : Bytes :=
  if data.length < 2 then []
  else if has_bom then
    if data.getD 0 0 = 0xFF ∧ data.getD 1 0 = 0xFE then
      decode_utf16_loop false (data.drop 2)
    else if data.getD 0 0 = 0xFE ∧ data.getD 1 0 = 0xFF then
      decode_utf16_loop true (data.drop 2)
    else decode_utf16_loop default_be (data.drop 2)
  else decode_utf16_loop default_be data

/-- `decode_text` (src/id3v2/id3v2_reader.c, lines 171-185). -/
def decode_text (encoding : Nat) (data : Bytes) : Bytes :=
  if encoding = 0 then decode_iso8859_1 data
  else if encoding = 1 then decode_utf16 data true false
  else if encoding = 2 then decode_utf16 data false true
  else if encoding = 3 then decode_utf8 data
  else decode_iso8859_1 data

/-- `find_text_terminator` for UTF-16: two zero bytes on an even offset;
returns the input length when absent (src/id3v2/id3v2_reader.c, 196-201). -/
def find_terminator_16 : Bytes → Nat
  | b0 :: b1 :: rest =>
    if b0 = 0 ∧ b1 = 0 then 0 else 2 + find_terminator_16 rest
  | [_] => 1
  | [] => 0

/-- `find_text_terminator` for single-byte encodings: first zero byte,
else the length (src/id3v2/id3v2_reader.c, 203-206). -/
def find_terminator_8 : Bytes → Nat
  | [] => 0
  | b :: rest => if b = 0 then 0 else 1 + find_terminator_8 rest

/-- `find_text_terminator` (src/id3v2/id3v2_reader.c, lines 193-207). -/
def find_text_terminator (encoding : Nat) (data : Bytes) : Nat :=
  if encoding = 1 ∨ encoding = 2 then find_terminator_16 data
  else find_terminator_8 data

/-- `terminator_size` (src/id3v2/id3v2_reader.c, lines 209-213). -/
def terminator_size (encoding : Nat) : Nat :=
  if encoding = 1 ∨ encoding = 2 then 2 else 1

/-! ## C6: UTF-16 surrogate-pair roundtrip -/

/-- Spec-side: high surrogate of a supplementary code point, from the spec
formula `c = 0x10000 + ((hi-0xD800)<<10) + (lo-0xDC00)`. -/
def utf16_hi_surrogate (c : Nat) : Nat := 0xD800 + (c - 0x10000) / 0x400

/-- Spec-side: low surrogate of a supplementary code point. -/
def utf16_lo_surrogate (c : Nat) : Nat := 0xDC00 + (c - 0x10000) % 0x400

/-- Spec-side: the surrogate pair serialized little-endian behind an FF FE
byte-order mark, the form the `ID3V2_ENC_UTF16_BOM` decoder accepts. -/
def utf16le_pair_bytes (c : Nat) : Bytes :=
  [0xFF, 0xFE,
   utf16_hi_surrogate c % 256, utf16_hi_surrogate c / 256,
   utf16_lo_surrogate c % 256, utf16_lo_surrogate c / 256]

/-- Spec-side: the surrogate pair serialized big-endian with no mark, the
form the `ID3V2_ENC_UTF16BE` decoder accepts. -/
def utf16be_pair_bytes (c : Nat) : Bytes :=
  [utf16_hi_surrogate c / 256, utf16_hi_surrogate c % 256,
   utf16_lo_surrogate c / 256, utf16_lo_surrogate c % 256]

theorem utf16_unit_le_recompose (u : Nat) :
    utf16_unit false (u % 256) (u / 256) = u := by
  unfold utf16_unit
  rw [if_neg (by simp)]
  rw [shiftLeft_or_eq_add (by omega : u % 256 < 2 ^ 8)]
  omega

theorem utf16_unit_be_recompose (u : Nat) :
    utf16_unit true (u / 256) (u % 256) = u := by
  unfold utf16_unit
  rw [if_pos rfl]
  rw [shiftLeft_or_eq_add (by omega : u % 256 < 2 ^ 8)]
  omega

/-- The decoder loop on exactly the four body bytes of a surrogate pair. -/
theorem decode_utf16_loop_pair (be : Bool) (hi lo : Nat)
    (hh1 : 0xD800 ≤ hi) (hh2 : hi ≤ 0xDBFF)
    (hl1 : 0xDC00 ≤ lo) (hl2 : lo ≤ 0xDFFF) :
    decode_utf16_loop be
      (if be then [hi / 256, hi % 256, lo / 256, lo % 256]
       else [hi % 256, hi / 256, lo % 256, lo / 256]) =
    utf8_of_supplementary (0x10000 + ((hi - 0xD800) <<< 10) +
      (lo - 0xDC00)) := by
  have hnilf : decode_utf16_loop false [] = [] := rfl
  have hnilt : decode_utf16_loop true [] = [] := rfl
  cases be
  · rw [if_neg (by simp)]
    rw [decode_utf16_loop]
    rw [utf16_unit_le_recompose, utf16_unit_le_recompose]
    rw [if_neg (by omega), if_pos ⟨hh1, hh2⟩, if_pos ⟨hl1, hl2⟩, hnilf]
    simp
  · rw [if_pos rfl]
    rw [decode_utf16_loop]
    rw [utf16_unit_be_recompose, utf16_unit_be_recompose]
    rw [if_neg (by omega), if_pos ⟨hh1, hh2⟩, if_pos ⟨hl1, hl2⟩, hnilt]
    simp

/-- C6: for every code point `c` in `[0x10000, 0x10FFFF]`, serializing the
surrogate pair of `c` little-endian with a BOM or big-endian without one
and decoding with the library's UTF-16 decoder yields exactly the 4-byte
UTF-8 encoding of `c`. -/
theorem utf16_surrogate_roundtrip (c : Nat)
    (hc1 : 0x10000 ≤ c) (hc2 : c ≤ 0x10FFFF) :
    decode_utf16 (utf16le_pair_bytes c) true false =
      utf8_of_supplementary c ∧
    decode_utf16 (utf16be_pair_bytes c) false true =
      utf8_of_supplementary c := by
  have hh1 : 0xD800 ≤ utf16_hi_surrogate c := by
    unfold utf16_hi_surrogate; omega
  have hh2 : utf16_hi_surrogate c ≤ 0xDBFF := by
    unfold utf16_hi_surrogate; omega
  have hl1 : 0xDC00 ≤ utf16_lo_surrogate c := by
    unfold utf16_lo_surrogate; omega
  have hl2 : utf16_lo_surrogate c ≤ 0xDFFF := by
    unfold utf16_lo_surrogate; omega
  have harg : 0x10000 + ((utf16_hi_surrogate c - 0xD800) <<< 10) +
      (utf16_lo_surrogate c - 0xDC00) = c := by
    rw [Nat.shiftLeft_eq]
    unfold utf16_hi_surrogate utf16_lo_surrogate
    have e10 : (2 : Nat) ^ 10 = 1024 := by norm_num
    rw [e10]
    omega
  constructor
  · show decode_utf16 [0xFF, 0xFE,
      utf16_hi_surrogate c % 256, utf16_hi_surrogate c / 256,
      utf16_lo_surrogate c % 256, utf16_lo_surrogate c / 256] true false = _
    unfold decode_utf16
    rw [if_neg (by simp), if_pos rfl, if_pos ⟨rfl, rfl⟩]
    have := decode_utf16_loop_pair false (utf16_hi_surrogate c)
      (utf16_lo_surrogate c) hh1 hh2 hl1 hl2
    rw [if_neg (by simp)] at this
    simp only [List.drop]
    rw [this, harg]
  · show decode_utf16 [utf16_hi_surrogate c / 256, utf16_hi_surrogate c % 256,
      utf16_lo_surrogate c / 256, utf16_lo_surrogate c % 256] false true = _
    unfold decode_utf16
    rw [if_neg (by simp), if_neg (by simp)]
    have := decode_utf16_loop_pair true (utf16_hi_surrogate c)
      (utf16_lo_surrogate c) hh1 hh2 hl1 hl2
    rw [if_pos rfl] at this
    rw [this, harg]

/-- Witness for C6 at `U+1F600`. -/
theorem utf16_surrogate_roundtrip_witness :
    decode_utf16 (utf16le_pair_bytes 0x1F600) true false =
      utf8_of_supplementary 0x1F600 ∧
    decode_utf16 (utf16be_pair_bytes 0x1F600) false true =
      utf8_of_supplementary 0x1F600 :=
  utf16_surrogate_roundtrip 0x1F600 (by norm_num) (by norm_num)

/-! ## Tag model (include/mp3tag/mp3tag.h, mp3tag_types.h usage) -/

/-- `mp3tag_simple_tag_t`: a name with exactly one of a UTF-8 text value or
a binary payload, plus an optional 3-letter language.  C strings are
NUL-free byte lists; a NULL pointer is `none`.  (The reserved `nested`
list and `is_default` flag play no part in the claims and are omitted.) -/
structure SimpleTag where
  name : Bytes
  value : Option Bytes
  binary : Option Bytes
  language : Option Bytes
deriving DecidableEq, Repr

/-- `mp3tag_tag_t`: simple tags under a target type (uid arrays omitted;
they are surfaced but not persisted by ID3v2). -/
structure Tag where
  target_type : Nat
  simple_tags : List SimpleTag
deriving DecidableEq, Repr

/-- `MP3TAG_TARGET_ALBUM` ("ALBUM target level (type 50)", mp3tag.h). -/
def MP3TAG_TARGET_ALBUM : Nat := 50

/-- `mp3tag_collection_t`: ordered tags plus the cached count. -/
structure Collection where
  tags : List Tag
  count : Nat
deriving DecidableEq, Repr

/-! ## Case-insensitive comparison -/

/-- ASCII uppercasing of one byte, as the comparison loops do it
(`if (c >= 'a' && c <= 'z') c -= 32`). -/
def upper_byte (c : Nat) : Nat := if 97 ≤ c ∧ c ≤ 122 then c - 32 else c

/-- Modelled from the spec: `str_casecmp` (string_util.c is not in the
repository; its header documents it as "Case-insensitive ASCII comparison.
Returns 0 if equal").  On NUL-free byte strings equality holds exactly when
the uppercased strings coincide; the inline comparison loop of
`id3v2_name_to_frame_id` (id3v2_defs.h, lines 146-160) computes the same
predicate. -/
def str_casecmp_eq (a b : Bytes) : Bool :=
  a.map upper_byte == b.map upper_byte

/-! ## Name map (src/id3v2/id3v2_defs.h, lines 93-120) -/

/-- The `id3v2_name_map` table: human name, v2.4 frame id, optional v2.3
alias. -/
def id3v2_name_map : List (Bytes × Bytes × Option Bytes) :=
  [(ascii "TITLE", ascii "TIT2", none),
   (ascii "SUBTITLE", ascii "TIT3", none),
   (ascii "ARTIST", ascii "TPE1", none),
   (ascii "ALBUM_ARTIST", ascii "TPE2", none),
   (ascii "ALBUM", ascii "TALB", none),
   (ascii "DATE_RELEASED", ascii "TDRC", some (ascii "TYER")),
   (ascii "TRACK_NUMBER", ascii "TRCK", none),
   (ascii "DISC_NUMBER", ascii "TPOS", none),
   (ascii "GENRE", ascii "TCON", none),
   (ascii "COMPOSER", ascii "TCOM", none),
   (ascii "LYRICIST", ascii "TEXT", none),
   (ascii "CONDUCTOR", ascii "TPE3", none),
   (ascii "COMMENT", ascii "COMM", none),
   (ascii "ENCODER", ascii "TSSE", none),
   (ascii "ENCODED_BY", ascii "TENC", none),
   (ascii "COPYRIGHT", ascii "TCOP", none),
   (ascii "BPM", ascii "TBPM", none),
   (ascii "PUBLISHER", ascii "TPUB", none),
   (ascii "ISRC", ascii "TSRC", none),
   (ascii "GROUPING", ascii "TIT1", none),
   (ascii "SORT_TITLE", ascii "TSOT", none),
   (ascii "SORT_ARTIST", ascii "TSOP", none),
   (ascii "SORT_ALBUM", ascii "TSOA", none),
   (ascii "SORT_ALBUM_ARTIST", ascii "TSO2", none),
   (ascii "ORIGINAL_DATE", ascii "TDOR", some (ascii "TORY"))]

/-- `id3v2_name_to_frame_id` (id3v2_defs.h, lines 144-162): first table
entry whose name matches case-insensitively, else none (caller emits
TXXX). -/
def id3v2_name_to_frame_id (name : Bytes) : Option Bytes :=
  (id3v2_name_map.find? (fun m => str_casecmp_eq name m.1)).map
    (fun m => m.2.1)

/-- Whether a table entry matches a 4-byte frame id on its v2.4 id or its
v2.3 alias (id3v2_defs.h, lines 128-135). -/
def frame_id_matches (frame_id : Bytes) (m : Bytes × Bytes × Option Bytes) :
    Bool :=
  frame_id == m.2.1 ||
    (match m.2.2 with | some v => frame_id == v | none => false)

/-- `id3v2_frame_id_to_name` (id3v2_defs.h, lines 126-138): human name for
a frame id, none when unmapped (caller uses the id itself). -/
def id3v2_frame_id_to_name (frame_id : Bytes) : Option Bytes :=
  (id3v2_name_map.find? (frame_id_matches frame_id)).map (fun m => m.1)

/-! ## Frame serialization (src/id3v2/id3v2_writer.c) -/

/-- `write_frame_header` (lines 20-29): four id bytes, syncsafe size, two
zero flag bytes. -/
def write_frame_header (frame_id : Bytes) (body_size : Nat) : Bytes :=
  frame_id.take 4 ++ id3v2_syncsafe_encode body_size ++ [0, 0]

/-- `serialize_text_frame` (lines 34-48): header, UTF-8 encoding byte,
text. -/
def serialize_text_frame (frame_id text : Bytes) : Bytes :=
  write_frame_header frame_id (1 + text.length) ++ [3] ++ text

/-- `serialize_txxx_frame` (lines 53-73): header, encoding byte,
description, NUL, value. -/
def serialize_txxx_frame (desc text : Bytes) : Bytes :=
  write_frame_header (ascii "TXXX") (1 + desc.length + 1 + text.length) ++
    [3] ++ desc ++ [0] ++ text

/-- The language the COMM serializer settles on (lines 81): the supplied
language when present and non-empty, else "und". -/
def effective_lang (language : Option Bytes) : Bytes :=
  match language with
  | none => ascii "und"
  | some l => if l.getD 0 0 = 0 then ascii "und" else l

/-- The three emitted language bytes (line 92):
`{lang[0], lang[1] ? lang[1] : ' ', lang[2] ? lang[2] : ' '}`; a missing
byte reads as NUL and pads with a space. -/
def lang3_bytes (lang : Bytes) : Bytes :=
  [lang.getD 0 0,
   if lang.getD 1 0 = 0 then 32 else lang.getD 1 0,
   if lang.getD 2 0 = 0 then 32 else lang.getD 2 0]

/-- `serialize_comm_frame` (lines 78-103): header for
`1 + 3 + 1 + text_len`, encoding byte, three language bytes, empty
description NUL, text. -/
def serialize_comm_frame (text : Bytes) (language : Option Bytes) : Bytes :=
  write_frame_header (ascii "COMM") (1 + 3 + 1 + text.length) ++
    [3] ++ lang3_bytes (effective_lang language) ++ [0] ++ text

/-- `serialize_binary_frame` (lines 108-114). -/
def serialize_binary_frame (frame_id data : Bytes) : Bytes :=
  write_frame_header frame_id data.length ++ data

/-- The scanning loop of `is_frame_id` (lines 119-130). -/
def is_frame_id_loop : Bytes → Nat → Bool
  | [], len => len == 4
  | c :: rest, len =>
    if 4 ≤ len then false
    else if ¬ valid_frame_id_byte c then false
    else is_frame_id_loop rest (len + 1)

/-- `is_frame_id` (lines 119-130): exactly four bytes, each A-Z or 0-9. -/
def is_frame_id (name : Bytes) : Bool := is_frame_id_loop name 0

/-- The per-simple-tag text path of `id3v2_serialize_frames` (lines
158-183): skip valueless tags, COMMENT to COMM, table lookup, raw frame
id, else TXXX. -/
def serialize_nonbinary (st : SimpleTag) : Bytes :=
  match st.value with
  | none => []
  | some v =>
    if str_casecmp_eq st.name (ascii "COMMENT") then
      serialize_comm_frame v st.language
    else
      match id3v2_name_to_frame_id st.name with
      | some fid => serialize_text_frame fid v
      | none =>
        if is_frame_id st.name then serialize_text_frame st.name v
        else serialize_txxx_frame st.name v

/-- The per-simple-tag body of `id3v2_serialize_frames` (lines 142-184):
a non-empty binary payload is emitted as a binary frame when the name is a
valid frame id and dropped otherwise; other tags take the text path. -/
def serialize_simple_tag (st : SimpleTag) : Bytes :=
  match st.binary with
  | some b =>
    if 0 < b.length then
      if is_frame_id st.name then serialize_binary_frame st.name b else []
    else serialize_nonbinary st
  | none => serialize_nonbinary st

/-- `id3v2_serialize_frames` (lines 136-188): every simple tag of every
tag, in iteration order, appended to one buffer. -/
def id3v2_serialize_frames (coll : Collection) : Bytes :=
  (coll.tags.map
    (fun tag => (tag.simple_tags.map serialize_simple_tag).flatten)).flatten

/-- `id3v2_build_header` (lines 190-199): `I D 3 04 00 00` then the
syncsafe body size. -/
def id3v2_build_header (body_size : Nat) : Bytes :=
  [73, 68, 51, 4, 0, 0] ++ id3v2_syncsafe_encode body_size

/-! ## C4: serialization rules as the spec words them -/

/-- Spec-side (claim C4): the 3-byte language code, defaulting to "und"
when absent, with absent characters padded by spaces. -/
def spec_comm_lang3 (language : Option Bytes) : Bytes :=
  match language with
  | none => ascii "und"
  | some l =>
    if l = [] then ascii "und"
    else l.take 3 ++ List.replicate (3 - l.length) 32

/-- Spec-side (claim C4): the emitted bytes for a text-carrying SimpleTag:
COMM for COMMENT (case-insensitive), the mapped or literal frame id with
`[UTF-8 byte][value]`, else TXXX with `[UTF-8 byte][name][0x00][value]`;
each frame preceded by a 10-byte header of id, syncsafe body size and two
zero flag bytes. -/
def spec_emit_text (st : SimpleTag) : Bytes :=
  match st.value with
  | none => []
  | some v =>
    if str_casecmp_eq st.name (ascii "COMMENT") then
      ascii "COMM" ++ id3v2_syncsafe_encode (1 + 3 + 1 + v.length) ++
        [0, 0] ++ [3] ++ spec_comm_lang3 st.language ++ [0] ++ v
    else
      match id3v2_name_to_frame_id st.name with
      | some fid =>
        fid ++ id3v2_syncsafe_encode (1 + v.length) ++ [0, 0] ++ [3] ++ v
      | none =>
        if is_frame_id st.name then
          st.name ++ id3v2_syncsafe_encode (1 + v.length) ++ [0, 0] ++
            [3] ++ v
        else
          ascii "TXXX" ++
            id3v2_syncsafe_encode (1 + st.name.length + 1 + v.length) ++
            [0, 0] ++ [3] ++ st.name ++ [0] ++ v

/-- Spec-side (claim C4): the emitted bytes for one SimpleTag: a binary
payload becomes a binary frame only under a valid four-character frame id
and is dropped otherwise; text goes through `spec_emit_text`. -/
def spec_emit (st : SimpleTag) : Bytes :=
  match st.binary with
  | some b =>
    if 0 < b.length then
      if is_frame_id st.name then
        st.name ++ id3v2_syncsafe_encode b.length ++ [0, 0] ++ b
      else []
    else spec_emit_text st
  | none => spec_emit_text st

theorem is_frame_id_loop_length : ∀ (l : Bytes) (n : Nat),
    is_frame_id_loop l n = true → n + l.length = 4 := by
  intro l
  induction l with
  | nil =>
    intro n h
    simp only [is_frame_id_loop, beq_iff_eq] at h
    simpa using h
  | cons c rest ih =>
    intro n h
    rw [is_frame_id_loop] at h
    split at h
    · cases h
    · split at h
      · cases h
      · have := ih (n + 1) h
        simp only [List.length_cons]
        omega

theorem is_frame_id_length {name : Bytes} (h : is_frame_id name = true) :
    name.length = 4 := by
  have := is_frame_id_loop_length name 0 h
  omega

theorem is_frame_id_take4 {name : Bytes} (h : is_frame_id name = true) :
    name.take 4 = name :=
  List.take_of_length_le (by rw [is_frame_id_length h])

theorem name_map_id_take4 {name fid : Bytes}
    (h : id3v2_name_to_frame_id name = some fid) : fid.take 4 = fid := by
  unfold id3v2_name_to_frame_id at h
  cases hf : id3v2_name_map.find? (fun m => str_casecmp_eq name m.1) with
  | none => rw [hf] at h; cases h
  | some m =>
    rw [hf] at h
    have hfid : fid = m.2.1 := by simpa using h.symm
    have hm := List.mem_of_find?_eq_some hf
    have hlen : (m.2.1).length = 4 := by
      have hall : id3v2_name_map.all (fun m => (m.2.1).length == 4) = true :=
        by decide
      simpa using List.all_eq_true.mp hall m hm
    rw [hfid]
    exact List.take_of_length_le (by omega)

theorem lang3_eq (language : Option Bytes)
    (h : ∀ l, language = some l → 0 ∉ l) :
    lang3_bytes (effective_lang language) = spec_comm_lang3 language := by
  match language with
  | none => rfl
  | some [] => rfl
  | some [a] =>
    have ha : a ≠ 0 := fun hc => h [a] rfl (by simp [hc])
    simp [effective_lang, lang3_bytes, spec_comm_lang3, ha]
  | some [a, b] =>
    have ha : a ≠ 0 := fun hc => h [a, b] rfl (by simp [hc])
    have hb : b ≠ 0 := fun hc => h [a, b] rfl (by simp [hc])
    simp [effective_lang, lang3_bytes, spec_comm_lang3, ha, hb]
  | some (a :: b :: c :: rest) =>
    have ha : a ≠ 0 := fun hc => h _ rfl (by simp [hc])
    have hb : b ≠ 0 := fun hc => h _ rfl (by simp [hc])
    have hc : c ≠ 0 := fun hcc => h _ rfl (by simp [hcc])
    simp [effective_lang, lang3_bytes, spec_comm_lang3, ha, hb, hc]

theorem serialize_nonbinary_eq_spec (st : SimpleTag)
    (hlang : ∀ l, st.language = some l → 0 ∉ l) :
    serialize_nonbinary st = spec_emit_text st := by
  obtain ⟨name, value, binary, language⟩ := st
  cases value with
  | none => rfl
  | some v =>
    have htake : (ascii "COMM").take 4 = ascii "COMM" := rfl
    have htxxx : (ascii "TXXX").take 4 = ascii "TXXX" := rfl
    by_cases hcomm : str_casecmp_eq name (ascii "COMMENT")
    · simp [serialize_nonbinary, spec_emit_text, hcomm, serialize_comm_frame,
        write_frame_header, lang3_eq _ hlang, htake, List.append_assoc]
    · cases hmap : id3v2_name_to_frame_id name with
      | some fid =>
        simp [serialize_nonbinary, spec_emit_text, hcomm, hmap,
          serialize_text_frame, write_frame_header, name_map_id_take4 hmap,
          List.append_assoc]
      | none =>
        by_cases hfid : is_frame_id name
        · simp [serialize_nonbinary, spec_emit_text, hcomm, hmap, hfid,
            serialize_text_frame, write_frame_header, is_frame_id_take4 hfid,
            List.append_assoc]
        · simp [serialize_nonbinary, spec_emit_text, hcomm, hmap, hfid,
            serialize_txxx_frame, write_frame_header, htxxx,
            List.append_assoc]

theorem serialize_simple_tag_eq_spec (st : SimpleTag)
    (hlang : ∀ l, st.language = some l → 0 ∉ l) :
    serialize_simple_tag st = spec_emit st := by
  have hnb := serialize_nonbinary_eq_spec st hlang
  obtain ⟨name, value, binary, language⟩ := st
  cases binary with
  | some b =>
    by_cases hlen : 0 < b.length
    · by_cases hfid : is_frame_id name
      · simp [serialize_simple_tag, spec_emit, hlen, hfid,
          serialize_binary_frame, write_frame_header,
          is_frame_id_take4 hfid, List.append_assoc]
      · simp [serialize_simple_tag, spec_emit, hlen, hfid]
    · simp only [serialize_simple_tag, spec_emit, if_neg hlen]
      exact hnb
  | none =>
    simp only [serialize_simple_tag, spec_emit]
    exact hnb

/-- C4: the serializer processes SimpleTags in iteration order, and each
SimpleTag is emitted exactly as the specification's per-case rules
describe (binary frames for valid-frame-id binary tags, COMM for COMMENT,
mapped/literal text frames, TXXX otherwise).  The hypothesis states that
stored language strings, being C strings, contain no NUL byte. -/
theorem serialize_frames_rules (coll : Collection)
    (hlang : ∀ tag ∈ coll.tags, ∀ st ∈ tag.simple_tags, ∀ l,
      st.language = some l → 0 ∉ l) :
    id3v2_serialize_frames coll =
      (coll.tags.map
        (fun tag => (tag.simple_tags.map spec_emit).flatten)).flatten := by
  unfold id3v2_serialize_frames
  congr 1
  apply List.map_congr_left
  intro tag htag
  congr 1
  apply List.map_congr_left
  intro st hst
  exact serialize_simple_tag_eq_spec st (hlang tag htag st hst)

/-- Witness for C4: a concrete collection exercising every emission rule
(binary kept, binary dropped, COMM with a two-letter language, a mapped
name, a literal frame id, and a TXXX fallback). -/
theorem serialize_frames_rules_witness :
    id3v2_serialize_frames
      { tags := [{ target_type := 50, simple_tags :=
          [{ name := ascii "APIC", value := none, binary := some [1, 2, 3],
             language := none },
           { name := ascii "no", value := none, binary := some [9],
             language := none },
           { name := ascii "Comment", value := some (ascii "hi"),
             binary := none, language := some (ascii "en") },
           { name := ascii "title", value := some (ascii "T"),
             binary := none, language := none },
           { name := ascii "WXYZ", value := some (ascii "v"),
             binary := none, language := none },
           { name := ascii "x", value := some (ascii "y"),
             binary := none, language := none }] }], count := 1 } =
      (([{ target_type := 50, simple_tags :=
          [{ name := ascii "APIC", value := none, binary := some [1, 2, 3],
             language := none },
           { name := ascii "no", value := none, binary := some [9],
             language := none },
           { name := ascii "Comment", value := some (ascii "hi"),
             binary := none, language := some (ascii "en") },
           { name := ascii "title", value := some (ascii "T"),
             binary := none, language := none },
           { name := ascii "WXYZ", value := some (ascii "v"),
             binary := none, language := none },
           { name := ascii "x", value := some (ascii "y"),
             binary := none, language := none }] }] : List Tag).map
        (fun tag => (tag.simple_tags.map spec_emit).flatten)).flatten :=
  serialize_frames_rules _ (by decide)

/-! ## Frame-to-collection conversion (src/id3v2/id3v2_reader.c, 338-519) -/

/-- `parse_text_frame` (lines 379-399): encoding byte, decoded remainder;
the name is the mapped human name or the raw frame id. -/
def parse_text_frame (f : Frame) : List SimpleTag :=
  if f.data.length < 1 then []
  else
    match id3v2_frame_id_to_name f.id with
    | some name =>
      [{ name := name,
         value := some (decode_text (f.data.getD 0 0) (f.data.drop 1)),
         binary := none, language := none }]
    | none =>
      [{ name := f.id,
         value := some (decode_text (f.data.getD 0 0) (f.data.drop 1)),
         binary := none, language := none }]

/-- `parse_txxx_frame` (lines 401-431): encoding byte, terminated
description used as the name, then the value. -/
def parse_txxx_frame (f : Frame) : List SimpleTag :=
  if f.data.length < 2 then []
  else
    [{ name := decode_text (f.data.getD 0 0)
         ((f.data.drop 1).take
           (find_text_terminator (f.data.getD 0 0) (f.data.drop 1))),
       value := some
         (if find_text_terminator (f.data.getD 0 0) (f.data.drop 1) +
              terminator_size (f.data.getD 0 0) < (f.data.drop 1).length
          then decode_text (f.data.getD 0 0)
            ((f.data.drop 1).drop
              (find_text_terminator (f.data.getD 0 0) (f.data.drop 1) +
                terminator_size (f.data.getD 0 0)))
          else []),
       binary := none, language := none }]

/-- `parse_comm_frame` (lines 433-468): encoding, three language bytes,
terminated short description skipped, comment text; the language is kept
when its first byte is non-NUL (C-string semantics stop it at the first
NUL). -/
def parse_comm_frame (f : Frame) : List SimpleTag :=
  if f.data.length < 5 then []
  else
    [{ name := ascii "COMMENT",
       value := some
         (if find_text_terminator (f.data.getD 0 0) (f.data.drop 4) +
              terminator_size (f.data.getD 0 0) < (f.data.drop 4).length
          then decode_text (f.data.getD 0 0)
            ((f.data.drop 4).drop
              (find_text_terminator (f.data.getD 0 0) (f.data.drop 4) +
                terminator_size (f.data.getD 0 0)))
          else []),
       binary := none,
       language :=
         if f.data.getD 1 0 ≠ 0 then
           some (([f.data.getD 1 0, f.data.getD 2 0,
                   f.data.getD 3 0]).takeWhile (fun c => c != 0))
         else none }]

/-- `parse_binary_frame` (lines 470-481). -/
def parse_binary_frame (f : Frame) : List SimpleTag :=
  match id3v2_frame_id_to_name f.id with
  | some name =>
    [{ name := name, value := none, binary := some f.data,
       language := none }]
  | none =>
    [{ name := f.id, value := none, binary := some f.data,
       language := none }]

/-- The frame dispatch of `id3v2_frames_to_collection` (lines 498-515):
skip compressed/encrypted frames (flags 0x0008/0x0004), TXXX, text frames
(id starting with `T`), COMM, else binary. -/
def frame_to_simple_tags (f : Frame) : List SimpleTag :=
  if f.flags &&& (0x0008 ||| 0x0004) ≠ 0 then []
  else if f.id.getD 0 0 = 84 ∧ f.id.getD 1 0 = 88 ∧ f.id.getD 2 0 = 88 ∧
          f.id.getD 3 0 = 88 then parse_txxx_frame f
  else if f.id.getD 0 0 = 84 then parse_text_frame f
  else if f.id.getD 0 0 = 67 ∧ f.id.getD 1 0 = 79 ∧ f.id.getD 2 0 = 77 ∧
          f.id.getD 3 0 = 77 then parse_comm_frame f
  else parse_binary_frame f

/-- `id3v2_frames_to_collection` (lines 483-519): one album-target tag
holding every converted simple tag, count 1. -/
def id3v2_frames_to_collection (frames : List Frame) :
    Except Err Collection :=
  .ok { tags := [{ target_type := MP3TAG_TARGET_ALBUM,
                   simple_tags := (frames.map frame_to_simple_tags).flatten }],
        count := 1 }

/-! ## ID3v1 (src/id3v1/id3v1.c) -/

/-- Modelled from the spec: `str_trim_fixed` (string_util.c is not in the
repository; its header reads "Trim trailing whitespace and NUL bytes from
a fixed-width field").  The field's `len` bytes are read as a C string
(up to the first NUL) and trailing spaces are dropped. -/
def str_trim_fixed (src : Bytes) (len : Nat) : Bytes :=
  (((src.take len).takeWhile (fun c => c != 0)).reverse.dropWhile
    (fun c => c == 32)).reverse

/-- `id3v1_detect` (src/id3v1/id3v1.c, lines 11-24): at least 128 bytes
and "TAG" at `file_size - 128`. -/
def id3v1_detect (file : Bytes) : Bool :=
  decide (128 ≤ file.length) &&
    ((file.drop (file.length - 128)).take 3 == [84, 65, 71])

/-- `add_simple` of id3v1.c (lines 39-66): empty values are skipped. -/
def id3v1_add_simple (name value : Bytes) : List SimpleTag :=
  if value = [] then []
  else [{ name := name, value := some value, binary := none,
          language := none }]

/-- The manual int-to-string of id3v1.c (lines 97-109 and 137-150). -/
def dec_byte_string (g : Nat) : Bytes :=
  if 100 ≤ g then [48 + g / 100, 48 + g / 10 % 10, 48 + g % 10]
  else if 10 ≤ g then [48 + g / 10, 48 + g % 10]
  else [48 + g]

/-- The simple tags `id3v1_read` builds from the raw 128 tag bytes
(src/id3v1/id3v1.c, lines 85-152): fixed-width fields, ID3v1.1 track
number with comment truncation to 28 characters and re-trim, genre index
unless 0xFF. -/
def id3v1_simple_tags (raw : Bytes) : List SimpleTag :=
  id3v1_add_simple (ascii "TITLE") (str_trim_fixed (raw.drop 3) 30) ++
  id3v1_add_simple (ascii "ARTIST") (str_trim_fixed (raw.drop 33) 30) ++
  id3v1_add_simple (ascii "ALBUM") (str_trim_fixed (raw.drop 63) 30) ++
  id3v1_add_simple (ascii "DATE_RELEASED")
    (str_trim_fixed (raw.drop 93) 4) ++
  id3v1_add_simple (ascii "COMMENT")
    (if raw.getD 125 0 = 0 ∧ raw.getD 126 0 ≠ 0 then
      (((str_trim_fixed (raw.drop 97) 30).take 28).reverse.dropWhile
        (fun c => c == 32)).reverse
     else str_trim_fixed (raw.drop 97) 30) ++
  id3v1_add_simple (ascii "TRACK_NUMBER")
    (if raw.getD 125 0 = 0 ∧ raw.getD 126 0 ≠ 0 then
      dec_byte_string (raw.getD 126 0)
     else []) ++
  (if raw.getD 127 0 ≠ 0xFF then
    id3v1_add_simple (ascii "GENRE") (dec_byte_string (raw.getD 127 0))
   else [])

/-- `id3v1_read` (src/id3v1/id3v1.c, lines 68-156): one album-target tag
with the fields of the trailing 128-byte ID3v1 block. -/
def id3v1_read (file : Bytes) : Except Err Collection :=
  if ¬ id3v1_detect file then .error .noTags
  else
    .ok { tags := [{ target_type := MP3TAG_TARGET_ALBUM,
                     simple_tags :=
                       id3v1_simple_tags (file.drop (file.length - 128)) }],
          count := 1 }

/-! ## Session read path (src/mp3tag.c) -/

/-- The read-path fields of `struct mp3tag_context` (src/mp3tag.c, lines
23-44). -/
structure Session where
  file : Bytes
  has_id3v2 : Bool
  id3v2_hdr : V2Header
  id3v2_offset : Nat
  audio_offset : Nat
  has_id3v1 : Bool
  cached_tags : Option Collection

/-- `mp3tag_read_tags` (src/mp3tag.c, lines 261-304): return the cache if
present, else parse ID3v2, else fall back to ID3v1, else NO_TAGS. -/
def mp3tag_read_tags (s : Session) : Except Err Collection :=
  match s.cached_tags with
  | some c => .ok c
  | none =>
    if s.has_id3v2 then
      match id3v2_read_frames s.file s.id3v2_offset s.id3v2_hdr with
      | .error e => .error e
      | .ok frames => id3v2_frames_to_collection frames
    else if s.has_id3v1 then id3v1_read s.file
    else .error .noTags

/-- The scan of `mp3tag_read_tag_string` (src/mp3tag.c, lines 317-324):
the first simple tag, in order, that has both a name and a text value and
whose name matches case-insensitively.  (The C nested loops with an early
return visit exactly this flattened order.) -/
def find_tag_value (name : Bytes) : List SimpleTag → Option Bytes
  | [] => none
  | st :: rest =>
    match st.value with
    | some v =>
      if str_casecmp_eq st.name name then some v
      else find_tag_value name rest
    | none => find_tag_value name rest

/-- `mp3tag_read_tag_string` (src/mp3tag.c, lines 306-327).  The final
copy models `str_copy` from the spec ("Safe string copy. Returns 0 on
success, -1 if truncated", string_util.h): the value plus its terminating
NUL must fit in `size` bytes. -/
def mp3tag_read_tag_string (s : Session) (name : Bytes) (size : Nat) :
    Except Err Bytes :=
  if size = 0 then .error .invalidArg
  else
    match mp3tag_read_tags s with
    | .error e => .error e
    | .ok coll =>
      match find_tag_value name
          ((coll.tags.map (fun t => t.simple_tags)).flatten) with
      | some v =>
        if v.length + 1 ≤ size then .ok v else .error .tagTooLarge
      | none => .error .tagNotFound

/-! ## C10 -/

/-- C10: `id3v2_frames_to_collection` returns OK with exactly one Tag,
target album, count 1, for every frame list; hence `read_tags` on a
session with a valid ID3v2 header whose frame walk decodes no frames (all
padding) yields OK with that single empty tag, not NO_TAGS. -/
theorem frames_to_collection_single_tag :
    (∀ frames : List Frame, ∃ sts,
      id3v2_frames_to_collection frames =
        .ok { tags := [{ target_type := MP3TAG_TARGET_ALBUM,
                         simple_tags := sts }], count := 1 }) ∧
    (∀ s : Session, s.cached_tags = none → s.has_id3v2 = true →
      id3v2_read_frames s.file s.id3v2_offset s.id3v2_hdr = .ok [] →
      mp3tag_read_tags s =
        .ok { tags := [{ target_type := MP3TAG_TARGET_ALBUM,
                         simple_tags := [] }], count := 1 }) := by
  constructor
  · intro frames
    exact ⟨_, rfl⟩
  · intro s hc h2 hw
    simp [mp3tag_read_tags, hc, h2, hw, id3v2_frames_to_collection]

/-- Witness for C10: a session holding a valid v2.4 header over a tag body
that is all padding. -/
theorem frames_to_collection_single_tag_witness :
    mp3tag_read_tags
      { file := [73, 68, 51, 4, 0, 0, 0, 0, 0, 20] ++ List.replicate 20 0,
        has_id3v2 := true,
        id3v2_hdr := { version_major := 4, version_revision := 0, flags := 0,
                       tag_size := 20, has_footer := false },
        id3v2_offset := 0, audio_offset := 30, has_id3v1 := false,
        cached_tags := none } =
      .ok { tags := [{ target_type := MP3TAG_TARGET_ALBUM,
                       simple_tags := [] }], count := 1 } :=
  frames_to_collection_single_tag.2 _ rfl rfl (by rfl)

/-! ## C9 -/

theorem find_tag_value_none {name : Bytes} :
    ∀ l : List SimpleTag,
      (∀ st ∈ l, str_casecmp_eq st.name name → st.value = none) →
      find_tag_value name l = none := by
  intro l
  induction l with
  | nil => intro _; rfl
  | cons st rest ih =>
    intro h
    have hrest : find_tag_value name rest = none :=
      ih fun st' hst' => h st' (List.mem_cons_of_mem _ hst')
    cases hv : st.value with
    | none => simp [find_tag_value, hv, hrest]
    | some v =>
      by_cases hm : str_casecmp_eq st.name name
      · have := h st (List.mem_cons_self st rest) hm
        rw [this] at hv
        cases hv
      · simp [find_tag_value, hv, hm, hrest]

/-- C9: `read_tag_string` only considers simple tags carrying a text
value: when every case-insensitive name match in the collection produced
by `read_tags` is binary-only (value absent), the call returns
TAG_NOT_FOUND and copies nothing. -/
theorem read_tag_string_skips_binary (s : Session) (name : Bytes)
    (size : Nat) (coll : Collection)
    (hread : mp3tag_read_tags s = .ok coll)
    (hsize : size ≠ 0)
    (hbin : ∀ tag ∈ coll.tags, ∀ st ∈ tag.simple_tags,
      str_casecmp_eq st.name name → st.value = none) :
    mp3tag_read_tag_string s name size = .error .tagNotFound := by
  have hnone : find_tag_value name
      ((coll.tags.map (fun t => t.simple_tags)).flatten) = none := by
    apply find_tag_value_none
    intro st hst
    rw [List.mem_flatten] at hst
    obtain ⟨l, hl, hstl⟩ := hst
    rw [List.mem_map] at hl
    obtain ⟨tag, htag, rfl⟩ := hl
    exact hbin tag htag st hstl
  simp [mp3tag_read_tag_string, hsize, hread, hnone]

/-- Witness for C9: a cached collection whose only name match carries
binary data (an APIC surfaced as binary). -/
theorem read_tag_string_skips_binary_witness :
    mp3tag_read_tag_string
      { file := [], has_id3v2 := false,
        id3v2_hdr := { version_major := 4, version_revision := 0, flags := 0,
                       tag_size := 0, has_footer := false },
        id3v2_offset := 0, audio_offset := 0, has_id3v1 := false,
        cached_tags := some { tags := [{ target_type := 50, simple_tags :=
          [{ name := [65, 80, 73, 67], value := none, binary := some [1],
             language := none }] }], count := 1 } }
      [97, 112, 105, 99] 16 = .error .tagNotFound :=
  read_tag_string_skips_binary _ _ 16
    { tags := [{ target_type := 50, simple_tags :=
        [{ name := [65, 80, 73, 67], value := none, binary := some [1],
           language := none }] }], count := 1 }
    rfl (by decide) (by decide)

/-! ## C5: container in-place write (src/mp3tag.c, lines 470-499) -/

/-- The `container_info_t` fields the in-place path reads (container.h). -/
structure ContainerInfo where
  has_id3_chunk : Bool
  id3_chunk_offset : Nat
  id3_chunk_data_size : Nat
  id3_chunk_data_offset : Nat
deriving DecidableEq, Repr

/-- Modelled from the spec: positioned full write of the Byte I/O surface
(`file_io.h` is not in this repository).  Writing `bytes` at `off`
replaces that byte range; the callers below stay within the existing
file. -/
def file_write_at (file : Bytes) (off : Nat) (bytes : Bytes) : Bytes :=
  file.take off ++ bytes ++ file.drop (off + bytes.length)

/-- `container_try_inplace` (src/mp3tag.c, lines 470-499): NO_SPACE unless
an id3 chunk exists and `10 + frames` fits in its data size; otherwise
seek to the chunk data offset and write a fresh v2.4 header for a body of
`chunk_data_size - 10`, the frames, and zeros filling the chunk.  The
returned pair carries the resulting file; the NO_SPACE cases return before
writing anything. -/
def container_try_inplace (file : Bytes) (info : ContainerInfo)
    (frame_buf : Bytes) : Except Err Unit × Bytes :=
  if ¬ info.has_id3_chunk then (.error .noSpace, file)
  else if info.id3_chunk_data_size < 10 + frame_buf.length then
    (.error .noSpace, file)
  else
    (.ok (), file_write_at file info.id3_chunk_data_offset
      (id3v2_build_header (info.id3_chunk_data_size - 10) ++ frame_buf ++
        List.replicate
          (info.id3_chunk_data_size - (10 + frame_buf.length)) 0))

theorem id3v2_build_header_length (n : Nat) :
    (id3v2_build_header n).length = 10 := rfl

/-- C5: with an existing id3 chunk, the in-place write succeeds exactly
when `10 + frame_body_size ≤ chunk_data_size`; on success the chunk data
region is replaced by a 10-byte v2.4 header whose tag size is
`chunk_data_size - 10`, the frames, then zeros to the end of the chunk,
and the rest of the file is untouched; otherwise NO_SPACE is returned and
the file is unmodified. -/
theorem container_inplace_characterization (file : Bytes)
    (info : ContainerInfo) (frame_buf : Bytes)
    (hchunk : info.has_id3_chunk = true) :
    (10 + frame_buf.length ≤ info.id3_chunk_data_size →
      container_try_inplace file info frame_buf =
        (.ok (), file.take info.id3_chunk_data_offset ++
          (id3v2_build_header (info.id3_chunk_data_size - 10) ++ frame_buf ++
            List.replicate
              (info.id3_chunk_data_size - (10 + frame_buf.length)) 0) ++
          file.drop
            (info.id3_chunk_data_offset + info.id3_chunk_data_size))) ∧
    (info.id3_chunk_data_size < 10 + frame_buf.length →
      container_try_inplace file info frame_buf =
        (.error .noSpace, file)) := by
  constructor
  · intro hfit
    unfold container_try_inplace
    rw [if_neg (by simp [hchunk]), if_neg (by omega)]
    unfold file_write_at
    have hlen : (id3v2_build_header (info.id3_chunk_data_size - 10) ++
        frame_buf ++ List.replicate
          (info.id3_chunk_data_size - (10 + frame_buf.length)) 0).length =
        info.id3_chunk_data_size := by
      simp [id3v2_build_header, id3v2_syncsafe_encode]
      omega
    rw [hlen]
  · intro hover
    unfold container_try_inplace
    rw [if_neg (by simp [hchunk]), if_pos hover]

/-- Witness for C5: a 40-byte container file whose 22-byte id3 chunk data
region starts at offset 18, receiving a 5-byte frame body. -/
theorem container_inplace_characterization_witness :
    container_try_inplace (List.replicate 40 7)
      { has_id3_chunk := true, id3_chunk_offset := 10,
        id3_chunk_data_size := 22, id3_chunk_data_offset := 18 }
      [1, 2, 3, 4, 5] =
      (.ok (), (List.replicate 40 7).take 18 ++
        (id3v2_build_header 12 ++ [1, 2, 3, 4, 5] ++
          List.replicate 7 0) ++
        (List.replicate 40 7).drop 40) :=
  (container_inplace_characterization (List.replicate 40 7)
    { has_id3_chunk := true, id3_chunk_offset := 10,
      id3_chunk_data_size := 22, id3_chunk_data_offset := 18 }
    [1, 2, 3, 4, 5] rfl).1 (by norm_num)

/-! ## C7: temp-file cleanup on the rewrite failure paths -/

/-- Outcomes of the fallible steps of `raw_rewrite` (src/mp3tag.c, lines
378-464), in program order.  The temp file does not pre-exist, so the
first `file_open_rw` fails and the `fopen(tmp_path, "wb")` touch is what
creates it. -/
structure RawRewriteSteps where
  touch_ok : Bool
  open_ok : Bool
  write_tag_ok : Bool
  zeros_ok : Bool
  copy_seek_ok : Bool
  copy_write_ok : Bool
  sync_ok : Bool
  rename_ok : Bool
  reopen_ok : Bool
deriving DecidableEq, Repr

/-- What a rewrite attempt leaves behind: the returned code (`none` is
MP3TAG_OK) and whether `<path>.tmp` still exists on return. -/
structure RewriteOutcome where
  code : Option Err
  tmp_exists : Bool
deriving DecidableEq, Repr

/-- The failure-path skeleton of `raw_rewrite` (src/mp3tag.c, lines
378-464).  Failures that jump to `cleanup` while the temp handle is open
unlink the temp file; once `file_close(tmp)` has run (before the rename),
`tmp` is NULL and the `if (tmp) unlink(tmp_path)` at `cleanup` no longer
fires, so a failed `rename` returns RENAME_FAILED with the temp file still
on disk.  A failed reopen of the touched temp (line 400) likewise returns
IO with the freshly created temp file left behind.  After a successful
rename the temp name no longer exists, so a reopen failure leaves no
temp. -/
def raw_rewrite_flow (io : RawRewriteSteps) : RewriteOutcome :=
  if ¬ io.touch_ok then { code := some .ioError, tmp_exists := false }
  else if ¬ io.open_ok then { code := some .ioError, tmp_exists := true }
  else if ¬ io.write_tag_ok then
    { code := some .writeFailed, tmp_exists := false }
  else if ¬ io.zeros_ok then
    { code := some .writeFailed, tmp_exists := false }
  else if ¬ io.copy_seek_ok then
    { code := some .seekFailed, tmp_exists := false }
  else if ¬ io.copy_write_ok then
    { code := some .writeFailed, tmp_exists := false }
  else if ¬ io.sync_ok then { code := some .ioError, tmp_exists := false }
  else if ¬ io.rename_ok then
    { code := some .renameFailed, tmp_exists := true }
  else if ¬ io.reopen_ok then { code := some .ioError, tmp_exists := false }
  else { code := none, tmp_exists := false }

/-- Outcomes of the fallible steps of `container_rewrite_id3`
(src/container/container.c, lines 212-376), in program order.  `write_ok`
collapses the header copy, chunk copy, new-chunk and size-patch writes:
each failure jumps to the same `cleanup` with the temp handle open. -/
structure ContainerRewriteSteps where
  touch_ok : Bool
  open_ok : Bool
  hdr_read_ok : Bool
  write_ok : Bool
  sync_ok : Bool
  rename_ok : Bool
  reopen_ok : Bool
deriving DecidableEq, Repr

/-- The failure-path skeleton of `container_rewrite_id3`
(src/container/container.c, lines 212-376): identical cleanup structure to
`raw_rewrite`, including the missed unlink on a failed rename (line 348,
`goto cleanup_path` with `tmp` already NULL). -/
def container_rewrite_flow (io : ContainerRewriteSteps) : RewriteOutcome :=
  if ¬ io.touch_ok then { code := some .ioError, tmp_exists := false }
  else if ¬ io.open_ok then { code := some .ioError, tmp_exists := true }
  else if ¬ io.hdr_read_ok then
    { code := some .ioError, tmp_exists := false }
  else if ¬ io.write_ok then
    { code := some .writeFailed, tmp_exists := false }
  else if ¬ io.sync_ok then { code := some .ioError, tmp_exists := false }
  else if ¬ io.rename_ok then
    { code := some .renameFailed, tmp_exists := true }
  else if ¬ io.reopen_ok then { code := some .ioError, tmp_exists := false }
  else { code := none, tmp_exists := false }

/-- C7 counterexample: when every step up to and including `file_sync`
succeeds but `rename` fails, `raw_rewrite` returns RENAME_FAILED with
`<path>.tmp` still on disk — the claimed unlink on the rename-failure path
does not happen. -/
theorem rewrite_unlink_counterexample :
    raw_rewrite_flow
      { touch_ok := true, open_ok := true, write_tag_ok := true,
        zeros_ok := true, copy_seek_ok := true, copy_write_ok := true,
        sync_ok := true, rename_ok := false, reopen_ok := true } =
      { code := some .renameFailed, tmp_exists := true } := rfl

/-- C7 (amended): on every failure path that created the temp file and
still holds its open handle — the tag write, zero fill, audio/chunk copy
and sync failures — the temp file is unlinked before returning.  The temp
survives exactly on the two paths that fail after the handle is gone: the
reopen of the freshly touched temp and the rename; in both rewrites. -/
theorem rewrite_unlink_amended :
    (∀ io : RawRewriteSteps,
      (raw_rewrite_flow io).tmp_exists = true ↔
        ((io.touch_ok = true ∧ io.open_ok = false) ∨
         (io.touch_ok = true ∧ io.open_ok = true ∧ io.write_tag_ok = true ∧
          io.zeros_ok = true ∧ io.copy_seek_ok = true ∧
          io.copy_write_ok = true ∧ io.sync_ok = true ∧
          io.rename_ok = false))) ∧
    (∀ io : ContainerRewriteSteps,
      (container_rewrite_flow io).tmp_exists = true ↔
        ((io.touch_ok = true ∧ io.open_ok = false) ∨
         (io.touch_ok = true ∧ io.open_ok = true ∧ io.hdr_read_ok = true ∧
          io.write_ok = true ∧ io.sync_ok = true ∧
          io.rename_ok = false))) := by
  constructor
  · intro io
    obtain ⟨a, b, c, d, e, f, g, h, i⟩ := io
    cases a <;> cases b <;> cases c <;> cases d <;> cases e <;> cases f <;>
      cases g <;> cases h <;> cases i <;> simp [raw_rewrite_flow]
  · intro io
    obtain ⟨a, b, c, d, e, f, g⟩ := io
    cases a <;> cases b <;> cases c <;> cases d <;> cases e <;> cases f <;>
      cases g <;> simp [container_rewrite_flow]

/-! ## C8: raw-stream write path and scenario S1 -/

/-- `raw_try_inplace` (src/mp3tag.c, lines 350-376): NO_SPACE without an
existing v2 tag or when the frames exceed the current tag size; otherwise
rewrite the 10-byte header with the same tag size at offset 0, the frames,
and zeros filling the remainder of the old body. -/
def raw_try_inplace (s : Session) (frame_buf : Bytes) :
    Except Err Bytes :=
  if ¬ s.has_id3v2 then .error .noSpace
  else if s.id3v2_hdr.tag_size < frame_buf.length then .error .noSpace
  else
    .ok (file_write_at s.file 0
      (id3v2_build_header s.id3v2_hdr.tag_size ++ frame_buf ++
        List.replicate (s.id3v2_hdr.tag_size - frame_buf.length) 0))

/-- The file produced by a successful `raw_rewrite` (src/mp3tag.c, lines
403-441, the data written to the temp that replaces the original): a v2.4
header for a body of `frames + 4096`, the frames, 4096 padding zeros, then
the source bytes from `audio_offset` to end of file. -/
def raw_rewrite_file (file : Bytes) (audio_offset : Nat)
    (frame_buf : Bytes) : Bytes :=
  id3v2_build_header (frame_buf.length + 4096) ++ frame_buf ++
    List.replicate 4096 0 ++ file.drop audio_offset

/-- `mp3tag_write_tags` for a raw-stream (CONTAINER_NONE) session with all
byte I/O succeeding (src/mp3tag.c, lines 553-563): serialize, try
in-place, else rewrite.  Returns the resulting on-disk bytes. -/
def mp3tag_write_tags_raw (s : Session) (coll : Collection) : Bytes :=
  match raw_try_inplace s (id3v2_serialize_frames coll) with
  | .ok f => f
  | .error _ =>
    raw_rewrite_file s.file s.audio_offset (id3v2_serialize_frames coll)

/-- The simple-tag list of the working collection `mp3tag_set_tag_string`
builds (src/mp3tag.c, lines 610-655): every previous simple tag whose name
does not match case-insensitively, then the new (name, value) pair.  A
failed read (no previous tags) is tolerated. -/
def set_tag_work_simple_tags (s : Session) (name value : Bytes) :
    List SimpleTag :=
  (match mp3tag_read_tags s with
   | .ok c =>
     (c.tags.map (fun t => t.simple_tags.filter
       (fun st => ¬ str_casecmp_eq st.name name))).flatten
   | .error _ => []) ++
  [{ name := name, value := some value, binary := none, language := none }]

def set_tag_work_collection (s : Session) (name value : Bytes) :
    Collection :=
  { tags := [{ target_type := MP3TAG_TARGET_ALBUM,
               simple_tags := set_tag_work_simple_tags s name value }],
    count := 1 }

/-- `mp3tag_set_tag_string` composed with the raw-stream write path
(src/mp3tag.c, lines 603-660 then 536-576). -/
def mp3tag_set_tag_string_raw (s : Session) (name value : Bytes) :
    Bytes :=
  mp3tag_write_tags_raw s (set_tag_work_collection s name value)

/-- C8 counterexample: on the concrete S1 input (a 417-byte raw MP3 with
no tag), the syncsafe body size written by
`set_tag_string("TITLE","Test Title")` is `21 + 4096` — the TIT2 frame is
10 header + 1 encoding + 10 text = 21 bytes — not the claimed
`14 + 4096`. -/
theorem s1_size_counterexample :
    id3v2_syncsafe_decode ((mp3tag_set_tag_string_raw
      { file := [255, 251, 144, 0] ++ List.replicate 413 0,
        has_id3v2 := false,
        id3v2_hdr := { version_major := 0, version_revision := 0,
                       flags := 0, tag_size := 0, has_footer := false },
        id3v2_offset := 0, audio_offset := 0, has_id3v1 := false,
        cached_tags := none }
      (ascii "TITLE") (ascii "Test Title")).drop 6) = 21 + 4096 ∧
    (21 + 4096 : Nat) ≠ 14 + 4096 := by
  constructor
  · rfl
  · norm_num

/-- C8 (amended): for scenario S1 — a 417-byte raw stream with no ID3v2
tag and no ID3v1 trailer — `set_tag_string("TITLE","Test Title")` produces
a file that begins with `49 44 33 04 00 00`, has syncsafe body size
`21 + 4096` (TIT2 frame = 10 header + 1 encoding + 10 text), continues
with `54 49 54 32`, the syncsafe frame size 11, two zero flag bytes, the
frame body `03 "Test Title"`, then 4096 zero bytes, then the original 417
audio bytes unchanged. -/
theorem s1_scenario (audio : Bytes) (_hlen : audio.length = 417)
    (hdr : V2Header) (off : Nat) :
    mp3tag_set_tag_string_raw
      { file := audio, has_id3v2 := false, id3v2_hdr := hdr,
        id3v2_offset := off, audio_offset := 0, has_id3v1 := false,
        cached_tags := none }
      (ascii "TITLE") (ascii "Test Title") =
      [73, 68, 51, 4, 0, 0] ++ id3v2_syncsafe_encode (21 + 4096) ++
      [84, 73, 84, 50] ++ id3v2_syncsafe_encode 11 ++ [0, 0] ++ [3] ++
      ascii "Test Title" ++ List.replicate 4096 0 ++ audio := by
  rfl

/-- Witness for C8's amended statement at the concrete S1 audio bytes. -/
theorem s1_scenario_witness :
    mp3tag_set_tag_string_raw
      { file := [255, 251, 144, 0] ++ List.replicate 413 0,
        has_id3v2 := false,
        id3v2_hdr := { version_major := 0, version_revision := 0,
                       flags := 0, tag_size := 0, has_footer := false },
        id3v2_offset := 0, audio_offset := 0, has_id3v1 := false,
        cached_tags := none }
      (ascii "TITLE") (ascii "Test Title") =
      [73, 68, 51, 4, 0, 0] ++ id3v2_syncsafe_encode (21 + 4096) ++
      [84, 73, 84, 50] ++ id3v2_syncsafe_encode 11 ++ [0, 0] ++ [3] ++
      ascii "Test Title" ++ List.replicate 4096 0 ++
      ([255, 251, 144, 0] ++ List.replicate 413 0) :=
  s1_scenario ([255, 251, 144, 0] ++ List.replicate 413 0) (by simp)
    { version_major := 0, version_revision := 0, flags := 0, tag_size := 0,
      has_footer := false } 0

end Mp3tag
